import Mathlib

/-!
Verification of the employees payroll and leave system
(`employees-refactored-v2.py`) against its specification.

Shallow embedding conventions:
* Python `float` money and rate values are modelled as `ℚ` (every constant
  occurring in the claims is exactly representable).
* Python `int` day and hour counts are modelled as `ℤ` (Python integers are
  signed and unbounded).
* A Python method that can `raise ValueError` is modelled as a function
  returning `Except String _`, carrying the message of the raise site.
* Timestamps (`datetime.now()`) are outside the model; the ledger entries
  keep every other field of the source dictionaries.
-/

/-- Embeds `EmployeeRole` (enum with values intern / manager / vice_president). -/
inductive EmployeeRole
  | intern
  | manager
  | vice_president
deriving DecidableEq, Repr

/-- Embeds `EmployeeRole.value`, the string payload of each enum member. -/
def EmployeeRole.value : EmployeeRole → String
  | .intern => "intern"
  | .manager => "manager"
  | .vice_president => "vice_president"

/-- Embeds the subclass-specific payload of the three `Employee` dataclass
subclasses: `SalariedEmployee.monthly_salary`, `HourlyEmployee.hourly_rate`
and `.hours_worked`, `FreelancerEmployee.projects` (dict name → amount,
modelled as an association list). The constructor tag plays the part of the
Python runtime class used by `isinstance` checks. -/
inductive EmployeeKind
  | salaried (monthly_salary : ℚ)
  | hourly (hourly_rate : ℚ) (hours_worked : ℤ)
  | freelancer (projects : List (String × ℚ))
deriving DecidableEq, Repr

/-- True exactly when `isinstance(employee, FreelancerEmployee)` is. -/
def EmployeeKind.isFreelancer : EmployeeKind → Bool
  | .freelancer _ => true
  | _ => false

/-- Embeds the base `Employee` dataclass fields, with the subclass payload in
`kind`. Defaults follow the dataclass defaults (`vacation_days = 25` from
`config.DEFAULT_VACATION_DAYS`, `performance_rating = 1.0`, zero special
hours). -/
structure Employee where
  name : String
  role : EmployeeRole
  kind : EmployeeKind
  vacation_days : ℤ := 25
  performance_rating : ℚ := 1
  night_shift_hours : ℤ := 0
  weekend_hours : ℤ := 0
  holiday_hours : ℤ := 0
deriving DecidableEq, Repr

/-- Embeds `Employee.reduce_vacation_days`: raises when the balance is
strictly below the requested days, otherwise subtracts them in place. The
returned employee is the post-state; an `error` result means the exception
propagated with the employee unchanged. -/
def Employee.reduce_vacation_days (e : Employee) (days : ℤ) : Except String Employee :=
  if e.vacation_days < days then
    .error "Insufficient vacation days"
  else
    .ok { e with vacation_days := e.vacation_days - days }

/-- C1: a deduction succeeds exactly when the balance covers the requested
days; on success the new balance is the old balance minus the days and is
never negative, every other field is unchanged; on failure the exception
carries the insufficient-balance message and no post-state is produced. -/
theorem claim_C1_reduce_vacation_days (e : Employee) (days : ℤ) :
    (e.vacation_days < days →
      e.reduce_vacation_days days = .error "Insufficient vacation days") ∧
    (days ≤ e.vacation_days →
      e.reduce_vacation_days days =
        .ok { e with vacation_days := e.vacation_days - days } ∧
      0 ≤ e.vacation_days - days) := by
  constructor
  · intro h
    simp [Employee.reduce_vacation_days, h]
  · intro h
    constructor
    · simp [Employee.reduce_vacation_days, not_lt.mpr h]
    · omega

/-- Witness for C1 at a concrete employee: balance 25, request 10 days. -/
theorem claim_C1_witness :
    let e : Employee :=
      { name := "w", role := .manager, kind := .salaried 5000, vacation_days := 25 }
    e.reduce_vacation_days 10 =
      .ok { e with vacation_days := 15 } ∧ (0:ℤ) ≤ 25 - 10 := by
  have h := claim_C1_reduce_vacation_days
    { name := "w", role := .manager, kind := .salaried 5000, vacation_days := 25 } 10
  exact ⟨(h.2 (by norm_num)).1, by norm_num⟩

/-- Embeds the bonus constants of `AppConfig`:
`SALARIED_BONUS_PERCENTAGE = 10.0`, `HOURLY_BONUS_AMOUNT = 100.0`,
`HOURLY_BONUS_THRESHOLD = 160`. -/
def AppConfig.SALARIED_BONUS_PERCENTAGE : ℚ := 10

/-- `AppConfig.HOURLY_BONUS_AMOUNT = 100.0`. -/
def AppConfig.HOURLY_BONUS_AMOUNT : ℚ := 100

/-- `AppConfig.HOURLY_BONUS_THRESHOLD = 160` hours. -/
def AppConfig.HOURLY_BONUS_THRESHOLD : ℤ := 160

/-- Embeds the `PaymentPolicy` dataclass with its field defaults. -/
structure PaymentPolicy where
  employee_type : String
  base_rate : ℚ
  overtime_multiplier : ℚ := 3/2
  bonus_percentage : ℚ := 0
  max_hours_per_week : ℤ := 40
  holiday_pay_multiplier : ℚ := 1
  weekend_pay_multiplier : ℚ := 1
  night_shift_bonus : ℚ := 0
  performance_bonus_threshold : ℚ := 0
  performance_bonus_percentage : ℚ := 0
deriving DecidableEq, Repr

/-- Embeds `SalariedPayrollCalculator.calculate_pay`. `policy` is the result
of `get_policy("salaried")`; `role`, `performance_rating` and
`monthly_salary` are the fields the method reads from the
`SalariedEmployee` argument. -/
def SalariedPayrollCalculator.calculate_pay (policy : PaymentPolicy)
    (role : EmployeeRole) (performance_rating monthly_salary : ℚ) : ℚ :=
  let base_pay := monthly_salary
  let performance_bonus :=
    if role ≠ EmployeeRole.intern then
      base_pay * (AppConfig.SALARIED_BONUS_PERCENTAGE / 100)
    else 0
  let extra_performance_bonus :=
    if performance_rating ≥ policy.performance_bonus_threshold then
      base_pay * (policy.performance_bonus_percentage / 100)
    else 0
  let regular_bonus := base_pay * (policy.bonus_percentage / 100)
  base_pay + performance_bonus + extra_performance_bonus + regular_bonus

/-- Embeds `HourlyPayrollCalculator.calculate_pay`. `policy` is the result
of `get_policy("hourly")`; the remaining arguments are the fields the
method reads from the `HourlyEmployee` argument. -/
def HourlyPayrollCalculator.calculate_pay (policy : PaymentPolicy)
    (role : EmployeeRole) (hourly_rate : ℚ) (hours_worked : ℤ)
    (weekend_hours holiday_hours night_shift_hours : ℤ) : ℚ :=
  let regular_hours : ℤ := min hours_worked policy.max_hours_per_week
  let overtime_hours : ℤ := max 0 (hours_worked - policy.max_hours_per_week)
  let base_pay := (regular_hours : ℚ) * hourly_rate
  let overtime_pay := (overtime_hours : ℚ) * hourly_rate * policy.overtime_multiplier
  let performance_bonus :=
    if role ≠ EmployeeRole.intern ∧ hours_worked > AppConfig.HOURLY_BONUS_THRESHOLD then
      AppConfig.HOURLY_BONUS_AMOUNT
    else 0
  let weekend_pay := (weekend_hours : ℚ) * hourly_rate * policy.weekend_pay_multiplier
  let holiday_pay := (holiday_hours : ℚ) * hourly_rate * policy.holiday_pay_multiplier
  let night_shift_pay := (night_shift_hours : ℚ) * policy.night_shift_bonus
  base_pay + overtime_pay + performance_bonus + weekend_pay + holiday_pay + night_shift_pay

/-- Embeds `FreelancerPayrollCalculator.calculate_pay`. `policy` is the
result of `get_policy("freelancer")`; `projects` is the dict of the
`FreelancerEmployee`, whose values are summed. -/
def FreelancerPayrollCalculator.calculate_pay (policy : PaymentPolicy)
    (performance_rating : ℚ) (projects : List (String × ℚ)) : ℚ :=
  let base_pay := (projects.map Prod.snd).sum
  let performance_bonus :=
    if performance_rating ≥ policy.performance_bonus_threshold then
      base_pay * (policy.performance_bonus_percentage / 100)
    else 0
  let regular_bonus := base_pay * (policy.bonus_percentage / 100)
  base_pay + performance_bonus + regular_bonus

/-- C5: for every hourly worker, regular hours are min(hours, ceiling),
overtime hours are max(0, hours − ceiling), they sum back to the hours
worked, and the total pay is the claimed sum of base, overtime at the
overtime multiplier, the flat 100 bonus exactly when hours exceed 160 and
the role is not intern, weekend and holiday hours at their multipliers,
and night hours at the flat per-hour night bonus; in particular rate 50,
hours 180, ceiling 40, overtime multiplier 1.5, zero special hours and a
non-intern role pay 12600. -/
theorem claim_C5_hourly_pay (policy : PaymentPolicy) (role : EmployeeRole)
    (rate : ℚ) (hours wk hol night : ℤ) :
    (min hours policy.max_hours_per_week + max 0 (hours - policy.max_hours_per_week)
        = hours) ∧
    (HourlyPayrollCalculator.calculate_pay policy role rate hours wk hol night =
      ((min hours policy.max_hours_per_week : ℤ) : ℚ) * rate
      + ((max 0 (hours - policy.max_hours_per_week) : ℤ) : ℚ) * rate
          * policy.overtime_multiplier
      + (if hours > 160 ∧ role ≠ EmployeeRole.intern then 100 else 0)
      + (wk : ℚ) * rate * policy.weekend_pay_multiplier
      + (hol : ℚ) * rate * policy.holiday_pay_multiplier
      + (night : ℚ) * policy.night_shift_bonus) ∧
    (HourlyPayrollCalculator.calculate_pay
        { employee_type := "hourly", base_rate := 50, overtime_multiplier := 3/2,
          max_hours_per_week := 40 }
        EmployeeRole.manager 50 180 0 0 0 = 12600) := by
  refine ⟨by omega, ?_, by norm_num [HourlyPayrollCalculator.calculate_pay,
    AppConfig.HOURLY_BONUS_THRESHOLD, AppConfig.HOURLY_BONUS_AMOUNT,
    (eq_false (show EmployeeRole.manager ≠ EmployeeRole.intern by decide))]⟩
  simp only [HourlyPayrollCalculator.calculate_pay,
    AppConfig.HOURLY_BONUS_THRESHOLD, AppConfig.HOURLY_BONUS_AMOUNT]
  rcases h : decide (role = EmployeeRole.intern) with _ | _ <;> simp_all

/-- C6: for every salaried worker, pay equals base plus the flat 10 percent
performance bonus exactly when the role is not intern, plus the
policy-driven performance bonus exactly when the rating meets the policy
threshold, plus the flat policy bonus percentage of base; in particular a
salaried manager with base 5000, rating below the 0.8 threshold and a
zero policy bonus percentage gets 5500. -/
theorem claim_C6_salaried_pay (policy : PaymentPolicy) (role : EmployeeRole)
    (rating salary : ℚ) :
    (SalariedPayrollCalculator.calculate_pay policy role rating salary =
      salary
      + (if role ≠ EmployeeRole.intern then salary * (10 / 100) else 0)
      + (if policy.performance_bonus_threshold ≤ rating then
          salary * (policy.performance_bonus_percentage / 100) else 0)
      + salary * (policy.bonus_percentage / 100)) ∧
    (SalariedPayrollCalculator.calculate_pay
        { employee_type := "salaried", base_rate := 5000, bonus_percentage := 0,
          performance_bonus_threshold := 4/5, performance_bonus_percentage := 5 }
        EmployeeRole.manager (1/2) 5000 = 5500) := by
  constructor
  · simp only [SalariedPayrollCalculator.calculate_pay,
      AppConfig.SALARIED_BONUS_PERCENTAGE, ge_iff_le]
  · norm_num [SalariedPayrollCalculator.calculate_pay,
      AppConfig.SALARIED_BONUS_PERCENTAGE,
      (eq_false (show EmployeeRole.manager ≠ EmployeeRole.intern by decide))]

/-- C7: for every freelancer worker, base pay is the sum of the project
amounts and the total is base plus the performance bonus exactly when the
rating meets the freelancer threshold plus the flat policy bonus
percentage of base; with zero projects the total is 0 (never an error),
and projects A:1000, B:1500 with bonus percentage 15 and a rating below
the threshold pay 2875. -/
theorem claim_C7_freelancer_pay (policy : PaymentPolicy) (rating : ℚ)
    (projects : List (String × ℚ)) :
    (FreelancerPayrollCalculator.calculate_pay policy rating projects =
      (projects.map Prod.snd).sum
      + (if policy.performance_bonus_threshold ≤ rating then
          (projects.map Prod.snd).sum * (policy.performance_bonus_percentage / 100)
        else 0)
      + (projects.map Prod.snd).sum * (policy.bonus_percentage / 100)) ∧
    (FreelancerPayrollCalculator.calculate_pay policy rating [] = 0) ∧
    (FreelancerPayrollCalculator.calculate_pay
        { employee_type := "freelancer", base_rate := 0, bonus_percentage := 15,
          performance_bonus_threshold := 9/10, performance_bonus_percentage := 10 }
        (1/2) [("A", 1000), ("B", 1500)] = 2875) := by
  refine ⟨?_, ?_, ?_⟩
  · simp only [FreelancerPayrollCalculator.calculate_pay, ge_iff_le]
  · simp [FreelancerPayrollCalculator.calculate_pay]
  · norm_num [FreelancerPayrollCalculator.calculate_pay]

/-- Embeds the `VacationPolicy` dataclass. -/
structure VacationPolicy where
  role : EmployeeRole
  base_vacation_days : ℤ
  max_vacation_days : ℤ
  payout_allowed : Bool
  payout_days_limit : ℤ
  carry_over_limit : ℤ
  seniority_bonus_days : ℤ := 0
deriving DecidableEq, Repr

/-- The intern entry of `VacationPolicyManager._policies`. -/
def internVacationPolicy : VacationPolicy :=
  { role := .intern, base_vacation_days := 0, max_vacation_days := 0,
    payout_allowed := false, payout_days_limit := 0, carry_over_limit := 0 }

/-- The manager entry of `VacationPolicyManager._policies`. -/
def managerVacationPolicy : VacationPolicy :=
  { role := .manager, base_vacation_days := 25, max_vacation_days := 35,
    payout_allowed := true, payout_days_limit := 10, carry_over_limit := 15,
    seniority_bonus_days := 2 }

/-- The vice-president entry of `VacationPolicyManager._policies`. -/
def vicePresidentVacationPolicy : VacationPolicy :=
  { role := .vice_president, base_vacation_days := 30, max_vacation_days := 5,
    payout_allowed := true, payout_days_limit := 5, carry_over_limit := 20,
    seniority_bonus_days := 3 }

/-- Embeds `VacationPolicyManager.get_policy` on the `_policies` dict built
in `__init__`. The dict holds an entry for each of the three role enum
members, so `self._policies.get(role, self._policies[EmployeeRole.INTERN])`
is this total lookup. The source's fallback to the intern policy for a key
absent from the dict is modelled separately by
`VacationPolicyManager.get_policy_state` below. -/
def VacationPolicyManager.get_policy : EmployeeRole → VacationPolicy
  | .intern => internVacationPolicy
  | .manager => managerVacationPolicy
  | .vice_president => vicePresidentVacationPolicy

/-- Embeds `VacationPolicyManager.get_policy` over an arbitrary `_policies`
dict state, keeping the source's lookup shape
`self._policies.get(role, self._policies[EmployeeRole.INTERN])`: a missing
key falls back to the intern entry, and only a dict lacking even the
intern entry would raise (`KeyError` on the eager default lookup). -/
def VacationPolicyManager.get_policy_state
    (policies : List (EmployeeRole × VacationPolicy)) (role : EmployeeRole) :
    Except String VacationPolicy :=
  match policies.lookup role with
  | some p => .ok p
  | none =>
    match policies.lookup EmployeeRole.intern with
    | some p => .ok p
    | none => .error "KeyError: EmployeeRole.INTERN"

/-- Embeds `VacationPolicyManager.can_take_vacation`. -/
def VacationPolicyManager.can_take_vacation (e : Employee) (days : ℤ) : Bool :=
  let policy := VacationPolicyManager.get_policy e.role
  decide (e.vacation_days ≥ days) && decide (days ≤ policy.max_vacation_days)

/-- Embeds `VacationPolicyManager.can_payout_vacation`. -/
def VacationPolicyManager.can_payout_vacation (e : Employee) (days : ℤ) : Bool :=
  let policy := VacationPolicyManager.get_policy e.role
  policy.payout_allowed && decide (e.vacation_days ≥ days)
    && decide (days ≤ policy.payout_days_limit)

/-- Embeds the dictionary appended by `TransactionLogger.log_vacation`
(without the `datetime.now()` timestamp, which is outside the model). -/
structure VacationTxn where
  employee_name : String
  employee_role : String
  transaction_type : String := "vacation"
  days_taken : ℤ
  payout : Bool
  remaining_days : ℤ
  description : String
deriving DecidableEq, Repr

/-- Embeds `TransactionLogger.log_vacation`: builds the transaction dict
(defaulting the description when the caller passes an empty one) and
appends it to `self._transactions`. The returned list is the new
transaction log state. -/
def TransactionLogger.log_vacation (e : Employee) (days : ℤ) (payout : Bool)
    (remaining_days : ℤ) (description : String) (transactions : List VacationTxn) :
    List VacationTxn :=
  let txn : VacationTxn :=
    { employee_name := e.name
      employee_role := e.role.value
      transaction_type := "vacation"
      days_taken := days
      payout := payout
      remaining_days := remaining_days
      description :=
        if description = "" then
          (if payout then "Payout" else "Vacation") ++ " of " ++ toString days ++ " days"
        else description }
  transactions ++ [txn]

/-- Embeds `EnhancedVacationManager.take_vacation`. State threading: the
employee and the transaction log are passed in and the updated pair is
returned; an `error` result is a raised `ValueError` with the employee and
the log unchanged (the freelancer branch prints and returns normally,
which is the `ok` result with nothing changed). -/
def EnhancedVacationManager.take_vacation (e : Employee)
    (transactions : List VacationTxn) (payout : Bool) (days : ℤ) :
    Except String (Employee × List VacationTxn) :=
  if e.kind.isFreelancer then
    .ok (e, transactions)
  else if e.role = EmployeeRole.intern then
    .error "Interns cannot request vacations or receive vacation payouts."
  else
    let policy := VacationPolicyManager.get_policy e.role
    let validation : Except String Unit :=
      if payout then
        if ¬ VacationPolicyManager.can_payout_vacation e days then
          .error ("Payout not allowed for " ++ e.role.value ++ " or insufficient days")
        else .ok ()
      else
        if ¬ VacationPolicyManager.can_take_vacation e days then
          .error ("Cannot take " ++ toString days ++ " days. Available: "
            ++ toString e.vacation_days ++ ", Max: " ++ toString policy.max_vacation_days)
        else .ok ()
    match validation with
    | .error m => .error m
    | .ok _ =>
      match e.reduce_vacation_days days with
      | .error m => .error m
      | .ok e2 =>
        let description := (if payout then "Payout" else "Vacation") ++ " for " ++ e.role.value
        .ok (e2, TransactionLogger.log_vacation e2 days payout e2.vacation_days
          description transactions)

/-- `can_take_vacation` unfolded to its two comparisons. -/
theorem can_take_vacation_iff (e : Employee) (days : ℤ) :
    VacationPolicyManager.can_take_vacation e days = true ↔
      days ≤ e.vacation_days ∧
      days ≤ (VacationPolicyManager.get_policy e.role).max_vacation_days := by
  simp [VacationPolicyManager.can_take_vacation, ge_iff_le]

/-- `can_payout_vacation` unfolded to its three conjuncts. -/
theorem can_payout_vacation_iff (e : Employee) (days : ℤ) :
    VacationPolicyManager.can_payout_vacation e days = true ↔
      (VacationPolicyManager.get_policy e.role).payout_allowed = true ∧
      days ≤ e.vacation_days ∧
      days ≤ (VacationPolicyManager.get_policy e.role).payout_days_limit := by
  simp [VacationPolicyManager.can_payout_vacation, ge_iff_le, and_assoc]

/-- The description built by `take_vacation` is never the empty string, so
`log_vacation` keeps it verbatim. -/
theorem vacation_description_ne_empty (p s : String) (hp : 0 < p.length) :
    (p ++ s) ≠ "" := by
  intro h
  have hl := congrArg String.length h
  rw [String.length_append] at hl
  simp at hl
  omega

/-- Successful path of `take_vacation`: a validated non-freelancer,
non-intern request deducts the days and appends one transaction. -/
theorem take_vacation_success (e : Employee) (transactions : List VacationTxn)
    (payout : Bool) (days : ℤ) (hk : e.kind.isFreelancer = false)
    (hr : e.role ≠ EmployeeRole.intern)
    (hval : (if payout then VacationPolicyManager.can_payout_vacation e days
             else VacationPolicyManager.can_take_vacation e days) = true)
    (hbal : days ≤ e.vacation_days) :
    EnhancedVacationManager.take_vacation e transactions payout days =
      .ok ({ e with vacation_days := e.vacation_days - days },
        transactions ++ [{ employee_name := e.name,
                           employee_role := e.role.value,
                           transaction_type := "vacation",
                           days_taken := days,
                           payout := payout,
                           remaining_days := e.vacation_days - days,
                           description := (if payout then "Payout" else "Vacation")
                             ++ " for " ++ e.role.value }]) := by
  cases payout <;>
    simp_all [EnhancedVacationManager.take_vacation, Employee.reduce_vacation_days,
      TransactionLogger.log_vacation, not_lt.mpr hbal] <;>
    (intro h; exact absurd h (vacation_description_ne_empty _ _ (by decide)))

/-- C2 counterexample: a `FreelancerEmployee` whose role is intern is handled
by the freelancer branch before the intern check, so the request returns
normally (no `ValueError` at all) instead of failing with the
interns-cannot-request error; balance and ledger are still untouched. -/
theorem claim_C2_counterexample :
    EnhancedVacationManager.take_vacation
      { name := "fi", role := .intern, kind := .freelancer [], vacation_days := 25 }
      [] false 3 =
      .ok ({ name := "fi", role := .intern, kind := .freelancer [], vacation_days := 25 },
        []) := by
  rfl

/-- C2 (amended): for every non-freelancer worker whose role is intern, any
leave request — time off or payout, any number of days — raises the
interns-cannot-request `ValueError`; no post-state is produced, so the
balance is unchanged and no ledger entry is created. -/
theorem claim_C2_intern_rejected (e : Employee) (transactions : List VacationTxn)
    (payout : Bool) (days : ℤ) (hk : e.kind.isFreelancer = false)
    (hr : e.role = EmployeeRole.intern) :
    EnhancedVacationManager.take_vacation e transactions payout days =
      .error "Interns cannot request vacations or receive vacation payouts." := by
  simp [EnhancedVacationManager.take_vacation, hk, hr]

/-- Witness for C2 (amended): a salaried intern requesting 5 days off. -/
theorem claim_C2_witness :
    EnhancedVacationManager.take_vacation
      { name := "i", role := .intern, kind := .salaried 5000, vacation_days := 25 }
      [] false 5 =
      .error "Interns cannot request vacations or receive vacation payouts." :=
  claim_C2_intern_rejected _ _ false 5 rfl rfl

/-- C3: for every freelancer worker, regardless of role, any leave request
(time off or payout, any number of days) is rejected immediately: the
result is a normal return with the employee and the transaction log both
exactly as they were. -/
theorem claim_C3_freelancer_rejected (e : Employee) (transactions : List VacationTxn)
    (payout : Bool) (days : ℤ) (h : e.kind.isFreelancer = true) :
    EnhancedVacationManager.take_vacation e transactions payout days =
      .ok (e, transactions) := by
  simp [EnhancedVacationManager.take_vacation, h]

/-- Witness for C3: a freelancer with the manager role requesting 5 days. -/
theorem claim_C3_witness :
    EnhancedVacationManager.take_vacation
      { name := "f", role := .manager, kind := .freelancer [("A", 1000)],
        vacation_days := 25 } [] false 5 =
      .ok ({ name := "f",
             role := .manager,
             kind := .freelancer [("A", 1000)],
             vacation_days := 25 }, []) :=
  claim_C3_freelancer_rejected _ _ false 5 rfl

/-- C4: for every non-intern, non-freelancer worker requesting a payout of
`days`, the request raises the payout `ValueError` whenever the role's
policy forbids payout, or the days exceed the policy's payout cap, or they
exceed the current balance (the code raises one and the same error for all
three conditions); otherwise it succeeds, reduces the balance by exactly
`days` and appends exactly one leave transaction with `payout = true`; in
particular a manager with balance 15 paying out 10 days under the payout
cap 10 ends with balance 5. -/
theorem claim_C4_payout (e : Employee) (transactions : List VacationTxn)
    (days : ℤ) (hk : e.kind.isFreelancer = false)
    (hr : e.role ≠ EmployeeRole.intern) :
    (((VacationPolicyManager.get_policy e.role).payout_allowed = false ∨
        (VacationPolicyManager.get_policy e.role).payout_days_limit < days ∨
        e.vacation_days < days) →
      EnhancedVacationManager.take_vacation e transactions true days =
        .error ("Payout not allowed for " ++ e.role.value ++ " or insufficient days")) ∧
    ((VacationPolicyManager.get_policy e.role).payout_allowed = true →
      days ≤ (VacationPolicyManager.get_policy e.role).payout_days_limit →
      days ≤ e.vacation_days →
      EnhancedVacationManager.take_vacation e transactions true days =
        .ok ({ e with vacation_days := e.vacation_days - days },
          transactions ++ [{ employee_name := e.name,
                             employee_role := e.role.value,
                             transaction_type := "vacation",
                             days_taken := days,
                             payout := true,
                             remaining_days := e.vacation_days - days,
                             description := "Payout" ++ " for " ++ e.role.value }])) ∧
    (EnhancedVacationManager.take_vacation
        { name := "m", role := .manager, kind := .salaried 5000, vacation_days := 15 }
        [] true 10 =
      .ok ({ name := "m", role := .manager, kind := .salaried 5000, vacation_days := 5 },
        [{ employee_name := "m",
           employee_role := "manager",
           transaction_type := "vacation",
           days_taken := 10,
           payout := true,
           remaining_days := 5,
           description := "Payout for manager" }])) := by
  refine ⟨?_, ?_, by rfl⟩
  · intro h
    have hcan : VacationPolicyManager.can_payout_vacation e days = false := by
      rw [Bool.eq_false_iff]
      intro hc
      rw [can_payout_vacation_iff] at hc
      rcases h with h | h | h
      · rw [hc.1] at h; cases h
      · omega
      · omega
    simp [EnhancedVacationManager.take_vacation, hk, hr, hcan]
  · intro h1 h2 h3
    have hval : VacationPolicyManager.can_payout_vacation e days = true := by
      rw [can_payout_vacation_iff]; exact ⟨h1, h3, h2⟩
    have := take_vacation_success e transactions true days hk hr (by simpa using hval) h3
    simpa using this

/-- Witness for C4 at the scenario input: manager, balance 15, payout of 10
days. -/
theorem claim_C4_witness :
    EnhancedVacationManager.take_vacation
      { name := "m", role := .manager, kind := .salaried 5000, vacation_days := 15 }
      [] true 10 =
      .ok ({ name := "m", role := .manager, kind := .salaried 5000, vacation_days := 5 },
        [{ employee_name := "m",
           employee_role := "manager",
           transaction_type := "vacation",
           days_taken := 10,
           payout := true,
           remaining_days := 5,
           description := "Payout for manager" }]) := by
  have h := claim_C4_payout
    { name := "m", role := .manager, kind := .salaried 5000, vacation_days := 15 }
    [] 10 rfl (by decide)
  exact (h.2.1 (by decide) (by decide) (by decide)).trans (by rfl)

/-- C10: the leave manager accepts non-positive day counts. For every
non-freelancer manager or vice-president worker with a non-negative
balance and every `days ≤ 0`, a time-off request passes both eligibility
checks (`balance ≥ days` and `days ≤ per-request maximum`), succeeds with
the balance set to `balance − days` — strictly increasing it when
`days < 0` — and still appends a leave transaction. -/
theorem claim_C10_nonpositive_days (e : Employee) (transactions : List VacationTxn)
    (days : ℤ) (hk : e.kind.isFreelancer = false)
    (hr : e.role = EmployeeRole.manager ∨ e.role = EmployeeRole.vice_president)
    (hd : days ≤ 0) (hb : 0 ≤ e.vacation_days) :
    VacationPolicyManager.can_take_vacation e days = true ∧
    EnhancedVacationManager.take_vacation e transactions false days =
      .ok ({ e with vacation_days := e.vacation_days - days },
        transactions ++ [{ employee_name := e.name,
                           employee_role := e.role.value,
                           transaction_type := "vacation",
                           days_taken := days,
                           payout := false,
                           remaining_days := e.vacation_days - days,
                           description := "Vacation" ++ " for " ++ e.role.value }]) ∧
    (days < 0 → e.vacation_days < e.vacation_days - days) := by
  have hmax : (0:ℤ) ≤ (VacationPolicyManager.get_policy e.role).max_vacation_days := by
    rcases hr with h | h <;>
      simp [h, VacationPolicyManager.get_policy, managerVacationPolicy,
        vicePresidentVacationPolicy]
  have hri : e.role ≠ EmployeeRole.intern := by
    rcases hr with h | h <;> simp [h]
  have hval : VacationPolicyManager.can_take_vacation e days = true := by
    rw [can_take_vacation_iff]; omega
  refine ⟨hval, ?_, by omega⟩
  have := take_vacation_success e transactions false days hk hri (by simpa using hval)
    (by omega)
  simpa using this

/-- Witness for C10: a manager with balance 25 requesting −3 days ends with
balance 28 and a logged transaction. -/
theorem claim_C10_witness :
    VacationPolicyManager.can_take_vacation
      { name := "m", role := .manager, kind := .salaried 5000, vacation_days := 25 }
      (-3) = true ∧
    EnhancedVacationManager.take_vacation
      { name := "m", role := .manager, kind := .salaried 5000, vacation_days := 25 }
      [] false (-3) =
      .ok ({ name := "m", role := .manager, kind := .salaried 5000, vacation_days := 28 },
        [{ employee_name := "m",
           employee_role := "manager",
           transaction_type := "vacation",
           days_taken := -3,
           payout := false,
           remaining_days := 28,
           description := "Vacation for manager" }]) ∧
    ((25:ℤ) < 28) := by
  have h := claim_C10_nonpositive_days
    { name := "m", role := .manager, kind := .salaried 5000, vacation_days := 25 }
    [] (-3) rfl (Or.inl rfl) (by norm_num) (by norm_num)
  exact ⟨h.1, (h.2.1).trans (by rfl), by norm_num⟩

/-- A Python value stored in a `PaymentPolicy` field and passed through
`update_policy(**kwargs)`: floats as `ℚ`, ints as `ℤ`, strings. -/
inductive PyVal
  | num (x : ℚ)
  | int (n : ℤ)
  | str (s : String)
deriving DecidableEq, Repr

/-- The attribute names of the `PaymentPolicy` dataclass, in declaration
order. -/
def PaymentPolicy.fieldNames : List String :=
  ["employee_type", "base_rate", "overtime_multiplier", "bonus_percentage",
   "max_hours_per_week", "holiday_pay_multiplier", "weekend_pay_multiplier",
   "night_shift_bonus", "performance_bonus_threshold",
   "performance_bonus_percentage"]

/-- Embeds `hasattr(current_policy, key)` for a `PaymentPolicy` instance. -/
def PaymentPolicy.hasattr (k : String) : Bool :=
  PaymentPolicy.fieldNames.contains k

/-- Embeds `setattr(current_policy, key, value)` for type-correct values
(the source is dynamically typed; every kwarg the program passes matches
the declared field type). An unknown key leaves the policy unchanged; in
`update_policy` such keys are already filtered out by the `hasattr`
guard. -/
def PaymentPolicy.setattr (p : PaymentPolicy) (k : String) (v : PyVal) : PaymentPolicy :=
  if k = "employee_type" then
    match v with | .str s => { p with employee_type := s } | _ => p
  else if k = "base_rate" then
    match v with | .num x => { p with base_rate := x } | _ => p
  else if k = "overtime_multiplier" then
    match v with | .num x => { p with overtime_multiplier := x } | _ => p
  else if k = "bonus_percentage" then
    match v with | .num x => { p with bonus_percentage := x } | _ => p
  else if k = "max_hours_per_week" then
    match v with | .int n => { p with max_hours_per_week := n } | _ => p
  else if k = "holiday_pay_multiplier" then
    match v with | .num x => { p with holiday_pay_multiplier := x } | _ => p
  else if k = "weekend_pay_multiplier" then
    match v with | .num x => { p with weekend_pay_multiplier := x } | _ => p
  else if k = "night_shift_bonus" then
    match v with | .num x => { p with night_shift_bonus := x } | _ => p
  else if k = "performance_bonus_threshold" then
    match v with | .num x => { p with performance_bonus_threshold := x } | _ => p
  else if k = "performance_bonus_percentage" then
    match v with | .num x => { p with performance_bonus_percentage := x } | _ => p
  else p

/-- Embeds `PaymentPolicyManager.get_policy` over the `_policies` dict state
(an association list keyed by employee-type string). -/
def PaymentPolicyManager.get_policy (policies : List (String × PaymentPolicy))
    (employee_type : String) : Except String PaymentPolicy :=
  match policies.lookup employee_type with
  | some p => .ok p
  | none => .error ("No payment policy found for employee type: " ++ employee_type)

/-- Embeds `PaymentPolicyManager.update_policy`: raises if no policy exists
for the key, otherwise applies each kwarg whose key is an attribute of the
policy (in kwarg order) and stores the updated policy back under the key.
The `_save_policies` persistence call has no effect on the in-memory state
modelled here. -/
def PaymentPolicyManager.update_policy (policies : List (String × PaymentPolicy))
    (employee_type : String) (kwargs : List (String × PyVal)) :
    Except String (List (String × PaymentPolicy)) :=
  match policies.lookup employee_type with
  | none => .error ("No policy exists for employee type: " ++ employee_type)
  | some current_policy =>
    let updated := kwargs.foldl
      (fun p kv => if PaymentPolicy.hasattr kv.1 then p.setattr kv.1 kv.2 else p)
      current_policy
    .ok (policies.map (fun tp => if tp.1 = employee_type then (tp.1, updated) else tp))

/-- Embeds the dict built by `_create_default_policies` (salaried, hourly,
freelancer defaults). -/
def defaultPaymentPolicies : List (String × PaymentPolicy) :=
  [("salaried",
    { employee_type := "salaried", base_rate := 5000, bonus_percentage := 10,
      performance_bonus_threshold := 4/5, performance_bonus_percentage := 5 }),
   ("hourly",
    { employee_type := "hourly", base_rate := 50, overtime_multiplier := 3/2,
      max_hours_per_week := 40, weekend_pay_multiplier := 5/4,
      night_shift_bonus := 2 }),
   ("freelancer",
    { employee_type := "freelancer", base_rate := 0, bonus_percentage := 15,
      performance_bonus_threshold := 9/10, performance_bonus_percentage := 10 })]

/-- Replacing the entry under key `t` in the policy dict leaves the policy
under every other key unchanged. -/
theorem lookup_map_replace_ne (ps : List (String × PaymentPolicy)) (t s : String)
    (q : PaymentPolicy) (hs : s ≠ t) :
    (ps.map (fun tp => if tp.1 = t then (tp.1, q) else tp)).lookup s =
      ps.lookup s := by
  induction ps with
  | nil => rfl
  | cons hd tl ih =>
    obtain ⟨a, b⟩ := hd
    simp only [List.map_cons]
    by_cases he : a = t
    · rw [show (if (a, b).1 = t then ((a, b).1, q) else (a, b)) = (a, q) from
        if_pos he]
      have hne : (s == a) = false := beq_eq_false_iff_ne.mpr (by rw [he]; exact hs)
      simp [List.lookup, hne, ih]
    · rw [show (if (a, b).1 = t then ((a, b).1, q) else (a, b)) = (a, b) from
        if_neg he]
      by_cases hsh : s = a
      · simp [List.lookup, hsh]
      · have hne : (s == a) = false := beq_eq_false_iff_ne.mpr hsh
        simp [List.lookup, hne, ih]

/-- Replacing the entry under a registered key stores the new policy there. -/
theorem lookup_map_replace_eq (ps : List (String × PaymentPolicy)) (t : String)
    (p q : PaymentPolicy) (h : ps.lookup t = some p) :
    (ps.map (fun tp => if tp.1 = t then (tp.1, q) else tp)).lookup t = some q := by
  induction ps with
  | nil => simp [List.lookup] at h
  | cons hd tl ih =>
    obtain ⟨a, b⟩ := hd
    simp only [List.map_cons]
    by_cases he : a = t
    · rw [show (if (a, b).1 = t then ((a, b).1, q) else (a, b)) = (a, q) from
        if_pos he]
      have heq : (t == a) = true := beq_iff_eq.mpr he.symm
      simp [List.lookup, heq]
    · rw [show (if (a, b).1 = t then ((a, b).1, q) else (a, b)) = (a, b) from
        if_neg he]
      have hne : (t == a) = false :=
        beq_eq_false_iff_ne.mpr (fun hh => he hh.symm)
      simp only [List.lookup, hne] at h
      simp [List.lookup, hne, ih h]

set_option maxHeartbeats 2000000 in
/-- `setattr` changes no attribute other than the named one. -/
theorem setattr_frame (p : PaymentPolicy) (k : String) (v : PyVal) :
    (k ≠ "employee_type" → (p.setattr k v).employee_type = p.employee_type) ∧
    (k ≠ "base_rate" → (p.setattr k v).base_rate = p.base_rate) ∧
    (k ≠ "overtime_multiplier" →
      (p.setattr k v).overtime_multiplier = p.overtime_multiplier) ∧
    (k ≠ "bonus_percentage" → (p.setattr k v).bonus_percentage = p.bonus_percentage) ∧
    (k ≠ "max_hours_per_week" →
      (p.setattr k v).max_hours_per_week = p.max_hours_per_week) ∧
    (k ≠ "holiday_pay_multiplier" →
      (p.setattr k v).holiday_pay_multiplier = p.holiday_pay_multiplier) ∧
    (k ≠ "weekend_pay_multiplier" →
      (p.setattr k v).weekend_pay_multiplier = p.weekend_pay_multiplier) ∧
    (k ≠ "night_shift_bonus" → (p.setattr k v).night_shift_bonus = p.night_shift_bonus) ∧
    (k ≠ "performance_bonus_threshold" →
      (p.setattr k v).performance_bonus_threshold = p.performance_bonus_threshold) ∧
    (k ≠ "performance_bonus_percentage" →
      (p.setattr k v).performance_bonus_percentage = p.performance_bonus_percentage) := by
  rcases v with x | n | sv <;>
    · unfold PaymentPolicy.setattr
      split_ifs <;> simp_all

/-- C8 counterexample: a change targeting a non-existent field does NOT fail
with an invalid-field error — `update_policy` silently skips it (the
`hasattr` guard) and returns with the policy set unchanged. -/
theorem claim_C8_counterexample :
    PaymentPolicyManager.update_policy defaultPaymentPolicies "salaried"
      [("no_such_field", PyVal.num 99)] = .ok defaultPaymentPolicies := by
  rfl

/-- C8 (amended): for every registered policy key, update applies exactly the
named existing-field changes to the policy under the key, leaving every
unspecified field and every other key untouched; it fails with the
no-policy `ValueError` when the key has no registered policy; a change
naming a field that does not exist on the policy is silently ignored (no
error, policy unchanged). -/
theorem claim_C8_update_policy :
    (∀ (ps : List (String × PaymentPolicy)) (t : String)
      (kwargs : List (String × PyVal)), ps.lookup t = none →
      PaymentPolicyManager.update_policy ps t kwargs =
        .error ("No policy exists for employee type: " ++ t)) ∧
    (∀ (ps : List (String × PaymentPolicy)) (t : String) (p : PaymentPolicy)
      (k : String) (v : PyVal), ps.lookup t = some p →
      PaymentPolicy.hasattr k = false →
      ∃ ps', PaymentPolicyManager.update_policy ps t [(k, v)] = .ok ps' ∧
        ps'.lookup t = some p ∧
        ∀ s, s ≠ t → ps'.lookup s = ps.lookup s) ∧
    (∀ (ps : List (String × PaymentPolicy)) (t : String) (p : PaymentPolicy)
      (k : String) (v : PyVal), ps.lookup t = some p →
      PaymentPolicy.hasattr k = true →
      ∃ ps', PaymentPolicyManager.update_policy ps t [(k, v)] = .ok ps' ∧
        ps'.lookup t = some (p.setattr k v) ∧
        ∀ s, s ≠ t → ps'.lookup s = ps.lookup s) ∧
    (∀ (p : PaymentPolicy) (k : String) (v : PyVal),
      (k ≠ "base_rate" → (p.setattr k v).base_rate = p.base_rate) ∧
      (k ≠ "overtime_multiplier" →
        (p.setattr k v).overtime_multiplier = p.overtime_multiplier) ∧
      (k ≠ "bonus_percentage" →
        (p.setattr k v).bonus_percentage = p.bonus_percentage) ∧
      (k ≠ "max_hours_per_week" →
        (p.setattr k v).max_hours_per_week = p.max_hours_per_week) ∧
      (k ≠ "holiday_pay_multiplier" →
        (p.setattr k v).holiday_pay_multiplier = p.holiday_pay_multiplier) ∧
      (k ≠ "weekend_pay_multiplier" →
        (p.setattr k v).weekend_pay_multiplier = p.weekend_pay_multiplier) ∧
      (k ≠ "night_shift_bonus" →
        (p.setattr k v).night_shift_bonus = p.night_shift_bonus) ∧
      (k ≠ "performance_bonus_threshold" →
        (p.setattr k v).performance_bonus_threshold = p.performance_bonus_threshold) ∧
      (k ≠ "performance_bonus_percentage" →
        (p.setattr k v).performance_bonus_percentage = p.performance_bonus_percentage)) ∧
    (∀ (p : PaymentPolicy) (x : ℚ) (n : ℤ) (sv : String),
      (p.setattr "employee_type" (.str sv)).employee_type = sv ∧
      (p.setattr "base_rate" (.num x)).base_rate = x ∧
      (p.setattr "overtime_multiplier" (.num x)).overtime_multiplier = x ∧
      (p.setattr "bonus_percentage" (.num x)).bonus_percentage = x ∧
      (p.setattr "max_hours_per_week" (.int n)).max_hours_per_week = n ∧
      (p.setattr "holiday_pay_multiplier" (.num x)).holiday_pay_multiplier = x ∧
      (p.setattr "weekend_pay_multiplier" (.num x)).weekend_pay_multiplier = x ∧
      (p.setattr "night_shift_bonus" (.num x)).night_shift_bonus = x ∧
      (p.setattr "performance_bonus_threshold" (.num x)).performance_bonus_threshold = x ∧
      (p.setattr "performance_bonus_percentage" (.num x)).performance_bonus_percentage
        = x) := by
  refine ⟨?_, ?_, ?_, ?_, ?_⟩
  · intro ps t kwargs h
    simp [PaymentPolicyManager.update_policy, h]
  · intro ps t p k v h hk
    refine ⟨ps.map (fun tp => if tp.1 = t then (tp.1, p) else tp), ?_, ?_, ?_⟩
    · simp [PaymentPolicyManager.update_policy, h, hk]
    · exact lookup_map_replace_eq ps t p p h
    · exact fun s hs => lookup_map_replace_ne ps t s p hs
  · intro ps t p k v h hk
    refine ⟨ps.map (fun tp => if tp.1 = t then (tp.1, p.setattr k v) else tp), ?_, ?_, ?_⟩
    · simp [PaymentPolicyManager.update_policy, h, hk]
    · exact lookup_map_replace_eq ps t p (p.setattr k v) h
    · exact fun s hs => lookup_map_replace_ne ps t s (p.setattr k v) hs
  · intro p k v
    exact (setattr_frame p k v).2
  · intro p x n sv
    refine ⟨rfl, rfl, rfl, rfl, rfl, rfl, rfl, rfl, rfl, rfl⟩

/-- Witness for C8: the unknown key "contractor" raises; updating the
salaried policy's bonus percentage stores the changed policy and leaves
the other keys as they were. -/
theorem claim_C8_witness :
    (PaymentPolicyManager.update_policy defaultPaymentPolicies "contractor" [] =
      .error "No policy exists for employee type: contractor") ∧
    (∃ ps', PaymentPolicyManager.update_policy defaultPaymentPolicies "salaried"
        [("bonus_percentage", PyVal.num 15)] = .ok ps' ∧
      ps'.lookup "salaried" =
        some ({ employee_type := "salaried", base_rate := 5000, bonus_percentage := 10,
                performance_bonus_threshold := 4/5,
                performance_bonus_percentage := 5 : PaymentPolicy}.setattr
          "bonus_percentage" (PyVal.num 15)) ∧
      ∀ s, s ≠ "salaried" →
        ps'.lookup s = defaultPaymentPolicies.lookup s) := by
  have h := claim_C8_update_policy
  exact ⟨h.1 defaultPaymentPolicies "contractor" [] rfl,
    h.2.2.1 defaultPaymentPolicies "salaried" _ "bonus_percentage" (PyVal.num 15)
      rfl rfl⟩

/-- C9 counterexample: a `_policies` dict state holding only the intern
entry: looking up the manager role does not fail with a policy-not-found
error — the source's `.get(role, intern default)` returns the intern
policy instead. -/
theorem claim_C9_counterexample :
    VacationPolicyManager.get_policy_state
      [(EmployeeRole.intern, internVacationPolicy)] EmployeeRole.manager =
      .ok internVacationPolicy := by
  rfl

/-- C9 (amended): for every worker type with no registered pay policy,
`get_policy` fails with the no-policy `ValueError`; the leave-policy
lookup, however, never fails that way: a role missing from the dict falls
back to the intern policy. -/
theorem claim_C9_policy_lookup :
    (∀ (policies : List (String × PaymentPolicy)) (employee_type : String),
      policies.lookup employee_type = none →
      PaymentPolicyManager.get_policy policies employee_type =
        .error ("No payment policy found for employee type: " ++ employee_type)) ∧
    (∀ (policies : List (EmployeeRole × VacationPolicy)) (role : EmployeeRole)
      (p : VacationPolicy),
      policies.lookup role = none →
      policies.lookup EmployeeRole.intern = some p →
      VacationPolicyManager.get_policy_state policies role = .ok p) := by
  constructor
  · intro ps t h
    simp [PaymentPolicyManager.get_policy, h]
  · intro ps r p h hi
    simp [VacationPolicyManager.get_policy_state, h, hi]

/-- Witness for C9: the unregistered type "contractor" raises on pay-policy
lookup; a leave dict holding only the intern entry serves the intern
policy for the vice-president role. -/
theorem claim_C9_witness :
    (PaymentPolicyManager.get_policy defaultPaymentPolicies "contractor" =
      .error "No payment policy found for employee type: contractor") ∧
    (VacationPolicyManager.get_policy_state
      [(EmployeeRole.intern, internVacationPolicy)] EmployeeRole.vice_president =
      .ok internVacationPolicy) := by
  have h := claim_C9_policy_lookup
  exact ⟨h.1 defaultPaymentPolicies "contractor" rfl,
    h.2 [(EmployeeRole.intern, internVacationPolicy)] EmployeeRole.vice_president
      internVacationPolicy rfl rfl⟩
